import Mathlib

/-!
Verification of the CSPP NOAA Active Fire dispatch pipeline
(`dispatcher.py` and `cspp_active_fire_noaa.py`).

The per-granule worker `afire_submitter` is embedded as a pure function
over an explicit environment (`ExecEnv`) recording the outcome of each
external call-out the worker makes: ancillary staging (`get_lwm`), file
linking (`link_files`), the external binary
(`execute_binary_captured_inject_io`), the log-file write, the output
repair block (attribute stamping / record extraction / report writing),
the per-file output moves, and cleanup.  An outcome of `exc` / `false` /
`none` models the corresponding Python call raising an exception; the
worker body maps those to exactly the control flow of the source.
-/

/-- Shared immutable option set handed to every worker
(`afire_options` in the source). -/
structure AfireOptions where
  work_dir : String
  ancillary_only : Bool
  i_band : Bool
  docleanup : Bool
  num_cpu : Option Int
  version : String
  deriving Repr, DecidableEq, Inhabited

/-- One granule task record (`granule_dict` in the source).  Granule ids
are modelled as naturals; the source uses strings sorted the same way. -/
structure GranuleDict where
  granule_id : Nat
  run_dir : String
  cmd : String
  afedr_file : String
  deriving Repr, DecidableEq, Inhabited

/-- Outcome of the ancillary staging collaborator `get_lwm`:
either a status code plus artifact path, or a raised exception (`exc`). -/
inductive StagingOutcome where
  | ok (rc_ancil : Int) (lwm_file : String)
  | exc
  deriving Repr, DecidableEq, Inhabited

/-- `failed_ancillary` as computed at dispatcher.py lines 85-93:
true when `get_lwm` returns a non-zero status or raises. -/
def failedAncillary : StagingOutcome → Bool
  | StagingOutcome.ok rc _ => rc != 0
  | StagingOutcome.exc => true

/-- Outcome of the output-repair block (dispatcher.py lines 164-331):
`exc` models an exception escaping to the outer handler at line 327;
`ok nfire writeOk` models successful attribute stamping with `nfire`
structured fire records, where `writeOk` says whether the text-report
write (attempted only when `nfire > 0`) succeeded. -/
inductive RepairOutcome where
  | exc
  | ok (nfire : Nat) (writeOk : Bool)
  deriving Repr, DecidableEq, Inhabited

/-- The external world one worker run observes, one field per external
call-out in `afire_submitter`.  `linkOk` / `logWriteOk` / `cleanupOk`
false and `execResult = none` model the call raising. -/
structure ExecEnv where
  stage : StagingOutcome
  linkOk : Bool
  execResult : Option (Int × String)
  logWriteOk : Bool
  repair : RepairOutcome
  moveOk : List Bool
  cleanupOk : Bool
  deriving Repr, DecidableEq, Inhabited

/-- The locals of one worker run at the single return point
(dispatcher.py line 359), plus instrumentation flags recording which
phases were reached. -/
structure WorkerOutcome where
  rc_exe : Int
  rc_problem : Int
  exe_out : String
  binaryInvoked : Bool
  repairAttempted : Bool
  moveAttempted : Bool
  reportAttempted : Bool
  caughtFault : Bool
  deriving Repr, DecidableEq, Inhabited

/-- The worker result list `[granule_id, rc_exe, rc_problem, exe_out]`
(dispatcher.py line 359), with the instrumentation flags kept. -/
structure WorkerResult where
  granule_id : Nat
  rc_exe : Int
  rc_problem : Int
  exe_out : String
  binaryInvoked : Bool
  repairAttempted : Bool
  moveAttempted : Bool
  reportAttempted : Bool
  caughtFault : Bool
  deriving Repr, DecidableEq, Inhabited

/-- True when the repair block records a problem: it raised, or the
report write was attempted (`nfire > 0`) and failed. -/
def repairProblem : RepairOutcome → Bool
  | RepairOutcome.exc => true
  | RepairOutcome.ok nfire writeOk => decide (0 < nfire) && !writeOk

/-- Body of `afire_submitter` (dispatcher.py lines 45-357): the
sequential per-task protocol.  `rc_exe` and `rc_problem` start at 0
(lines 57-58).  Ancillary-only mode and staging failure stop before the
binary; otherwise link, execute, persist the log, repair regardless of
`rc_exe` (an exception there sets `rc_problem := 1` at line 328, report
write failure sets it at lines 251/322), move each output (a move
failure sets `rc_problem := 1` at line 344 without stopping the loop),
and clean up only when both codes are 0.  The catch-all at line 353
swallows any exception and falls through to the return, leaving
`rc_exe` and `rc_problem` at their values when the fault occurred. -/
def afire_worker_body (env : ExecEnv) (opts : AfireOptions) (exe_out0 : String) :
    WorkerOutcome :=
  let failed_ancillary := failedAncillary env.stage
  if opts.ancillary_only then
    { rc_exe := 0, rc_problem := if failed_ancillary then 1 else 0, exe_out := exe_out0,
      binaryInvoked := false, repairAttempted := false, moveAttempted := false,
      reportAttempted := false, caughtFault := false }
  else if failed_ancillary then
    { rc_exe := 0, rc_problem := 1, exe_out := exe_out0,
      binaryInvoked := false, repairAttempted := false, moveAttempted := false,
      reportAttempted := false, caughtFault := false }
  else if env.linkOk = false then
    { rc_exe := 0, rc_problem := 0, exe_out := exe_out0,
      binaryInvoked := false, repairAttempted := false, moveAttempted := false,
      reportAttempted := false, caughtFault := true }
  else
    match env.execResult with
    | none =>
      { rc_exe := 0, rc_problem := 0, exe_out := exe_out0,
        binaryInvoked := true, repairAttempted := false, moveAttempted := false,
        reportAttempted := false, caughtFault := true }
    | some (rc, out) =>
      if env.logWriteOk = false then
        { rc_exe := rc, rc_problem := 0, exe_out := out,
          binaryInvoked := true, repairAttempted := false, moveAttempted := false,
          reportAttempted := false, caughtFault := true }
      else
        let repairRes : Int × Bool :=
          match env.repair with
          | RepairOutcome.exc => (1, false)
          | RepairOutcome.ok nfire writeOk =>
            if 0 < nfire then (if writeOk then (0, true) else (1, true)) else (0, false)
        let rc_problem := if env.moveOk.all (fun b => b) then repairRes.1 else 1
        { rc_exe := rc, rc_problem := rc_problem, exe_out := out,
          binaryInvoked := true, repairAttempted := true, moveAttempted := true,
          reportAttempted := repairRes.2,
          caughtFault :=
            if rc = 0 ∧ rc_problem = 0 ∧ opts.docleanup = true then !env.cleanupOk
            else false }

/-- `afire_submitter` (dispatcher.py lines 37-359): runs the body and
assembles the returned record, pairing the task's granule id with the
final local values. -/
def afire_submitter (env : ExecEnv) (granule_dict : GranuleDict)
    (opts : AfireOptions) : WorkerResult :=
  let o := afire_worker_body env opts
    ("Finished the Active Fires granule " ++ toString granule_dict.granule_id)
  { granule_id := granule_dict.granule_id, rc_exe := o.rc_exe,
    rc_problem := o.rc_problem, exe_out := o.exe_out,
    binaryInvoked := o.binaryInvoked, repairAttempted := o.repairAttempted,
    moveAttempted := o.moveAttempted, reportAttempted := o.reportAttempted,
    caughtFault := o.caughtFault }

/-- Run-directory allocation loop (dispatcher.py lines 72-79): probe
suffix indices `log_idx = 0, 1, 2, ...` against the existing-directory
predicate `ex` and return the first free index, which is then created
(`os.makedirs`).  The Python loop is unbounded; `fuel` bounds the
embedding, with `none` for exhaustion. -/
def find_run_dir (ex : Nat → Bool) : Nat → Nat → Option Nat
  | 0, _ => none
  | fuel + 1, log_idx =>
    if ex log_idx then find_run_dir ex fuel (log_idx + 1) else some log_idx

/-- The run-dir name probed at index `idx`
(`pjoin(work_dir, "{run_dir}_run_{idx}")`, dispatcher.py line 74). -/
def run_dir_name (work_dir base : String) (idx : Nat) : String :=
  work_dir ++ "/" ++ base ++ "_run_" ++ toString idx

/-- Pool sizing (dispatcher.py lines 378-397): returns the pool size and
whether the clamping warning was logged.  `num_cpu` set: clamp to
`cpu_count` with a warning when it exceeds it, else use it as is;
`num_cpu` unset: use `cpu_count`. -/
def cpus_to_use (num_cpu : Option Int) (cpu_count : Int) : Int × Bool :=
  match num_cpu with
  | some requested =>
    if requested > cpu_count then (cpu_count, true) else (requested, false)
  | none => (cpu_count, false)

/-- Python dict assignment `m[k] = v`: replace the value at `k` if
present, else append the binding. -/
def dinsert (m : List (Nat × Int)) (k : Nat) (v : Int) : List (Nat × Int) :=
  match m with
  | [] => [(k, v)]
  | (k0, v0) :: rest =>
    if k0 = k then (k0, v) :: rest else (k0, v0) :: dinsert rest k v

/-- Python dict indexing `d[k]` on the input dict, modelled on an
association list. -/
def dlookup (k : Nat) : List (Nat × GranuleDict) → Option GranuleDict
  | [] => none
  | p :: rest => if p.1 = k then some p.2 else dlookup k rest

/-- `sorted(afire_data_dict.keys())` (dispatcher.py line 369). -/
def granuleIdList (d : List (Nat × GranuleDict)) : List Nat :=
  List.insertionSort (fun a b => a ≤ b) (d.map Prod.fst)

/-- `afire_dispatcher` (dispatcher.py lines 362-432): build one task per
sorted granule id, run the worker on each (`pool.map_async(...).get`),
then fold the result records into the two status dicts keyed by the
granule id each worker returned.  `envOf` gives the external world each
task's worker observes. -/
def afire_dispatcher (envOf : Nat → ExecEnv) (afire_data_dict : List (Nat × GranuleDict))
    (opts : AfireOptions) : List (Nat × Int) × List (Nat × Int) :=
  let granule_id_list := granuleIdList afire_data_dict
  let afire_tasks := granule_id_list.map (fun g => (dlookup g afire_data_dict).getD default)
  let result_list := afire_tasks.map (fun gd => afire_submitter (envOf gd.granule_id) gd opts)
  result_list.foldl
    (fun acc r => (dinsert acc.1 r.granule_id r.rc_exe, dinsert acc.2 r.granule_id r.rc_problem))
    ([], [])

/-- `sorted(list(set(xs)))` (cspp_active_fire_noaa.py lines 118-121). -/
def pySortedSet (xs : List Nat) : List Nat :=
  List.insertionSort (fun a b => a ≤ b) xs.dedup

/-- The four diagnostic granule-id lists returned by
`process_afire_inputs`. -/
structure RunLists where
  attempted : List Nat
  successful : List Nat
  crashed : List Nat
  problem : List Nat
  deriving Repr, DecidableEq, Inhabited

/-- One iteration of the classification loop
(cspp_active_fire_noaa.py lines 106-116). -/
def populate_step (rc_exe_dict rc_problem_dict : Nat → Int) (acc : RunLists)
    (granule_id : Nat) : RunLists :=
  let acc1 := { acc with attempted := acc.attempted ++ [granule_id] }
  let acc2 :=
    if rc_exe_dict granule_id = 0 then
      if rc_problem_dict granule_id = 0 then
        { acc1 with successful := acc1.successful ++ [granule_id] }
      else acc1
    else { acc1 with crashed := acc1.crashed ++ [granule_id] }
  if rc_problem_dict granule_id ≠ 0 then
    { acc2 with problem := acc2.problem ++ [granule_id] }
  else acc2

/-- The summary surfaced to the caller (cspp_active_fire_noaa.py lines
105-123): classify every granule id by the two status maps, then sort
and de-duplicate each list. -/
def populate_runs (granule_id_list : List Nat) (rc_exe_dict rc_problem_dict : Nat → Int) :
    RunLists :=
  let r := granule_id_list.foldl (populate_step rc_exe_dict rc_problem_dict) ⟨[], [], [], []⟩
  ⟨pySortedSet r.attempted, pySortedSet r.successful,
   pySortedSet r.crashed, pySortedSet r.problem⟩

/-- Outcome of `process_afire_inputs` as observed by `main`: a normal
return of the four summary lists, or a raised exception. -/
inductive ProcessOutcome where
  | ok (attempted successful crashed problem : List Nat)
  | exc
  deriving Repr, DecidableEq, Inhabited

/-- The external world `main` observes: the four environment /
installation checks of cspp_active_fire_noaa.py lines 138-142 (false =
the check raises `CsppEnvironment`), and the outcome of
`process_afire_inputs`. -/
structure MainEnv where
  homeVarOk : Bool
  staticVarOk : Bool
  staticAncilPathOk : Bool
  workDirPathOk : Bool
  processOutcome : ProcessOutcome
  deriving Repr, DecidableEq, Inhabited

/-- All four environment / installation checks pass. -/
def envChecksOk (e : MainEnv) : Bool :=
  e.homeVarOk && e.staticVarOk && e.staticAncilPathOk && e.workDirPathOk

/-- The driver entry point `main` (cspp_active_fire_noaa.py lines 126-179),
modelled as `afire_main`: returns the process
return code paired with whether `process_afire_inputs` (and hence any
dispatch) was ever invoked.  A failed environment check returns 2 before
any dispatch; an exception out of input processing yields 1; otherwise
0. -/
def afire_main (e : MainEnv) : Int × Bool :=
  if envChecksOk e = false then (2, false)
  else
    match e.processOutcome with
    | ProcessOutcome.exc => (1, true)
    | ProcessOutcome.ok _ _ _ _ => (0, true)

/-- A concrete granule task used for concrete evaluations. -/
def sampleGd : GranuleDict := ⟨7, "d20241001", "vfire cmd", "AFMOD.nc"⟩

/-- Concrete options: full processing (not ancillary-only), M-band,
cleanup enabled, no requested CPU count. -/
def sampleOpts : AfireOptions := ⟨"work", false, false, true, none, "2.1"⟩

/-- A world where staging succeeds but `link_files` raises: the fault is
caught at the task boundary with both status codes still 0. -/
def faultEnv : ExecEnv :=
  ⟨StagingOutcome.ok 0 "lwm.nc", false, none, true, RepairOutcome.ok 0 true, [], true⟩

/-- A world where `get_lwm` raises. -/
def stageFailEnv : ExecEnv :=
  ⟨StagingOutcome.exc, true, none, true, RepairOutcome.ok 0 true, [], true⟩

/-- A world where the binary segfaults (exit code -11) and the repair
block then raises; the single output move succeeds. -/
def crashEnv : ExecEnv :=
  ⟨StagingOutcome.ok 0 "lwm.nc", true, some (-11, "crash output"), true,
   RepairOutcome.exc, [true], true⟩

/-- A world with a clean binary exit and an output container holding
zero structured fire records. -/
def zeroFireEnv : ExecEnv :=
  ⟨StagingOutcome.ok 0 "lwm.nc", true, some (0, "done"), true,
   RepairOutcome.ok 0 true, [true], true⟩

/-- A concrete two-granule input dict with unsorted keys. -/
def sampleDict : List (Nat × GranuleDict) :=
  [(2, ⟨2, "r2", "c2", "f2"⟩), (1, ⟨1, "r1", "c1", "f1"⟩)]

theorem afire_submitter_granule_id (env : ExecEnv) (gd : GranuleDict)
    (opts : AfireOptions) : (afire_submitter env gd opts).granule_id = gd.granule_id := rfl

theorem mem_pySortedSet {a : Nat} {xs : List Nat} : a ∈ pySortedSet xs ↔ a ∈ xs := by
  unfold pySortedSet
  rw [List.mem_insertionSort]
  exact List.mem_dedup

theorem sorted_pySortedSet (xs : List Nat) :
    (pySortedSet xs).Sorted (fun a b => a ≤ b) :=
  List.sorted_insertionSort _ _

theorem nodup_pySortedSet (xs : List Nat) : (pySortedSet xs).Nodup :=
  (List.perm_insertionSort _ _).nodup_iff.mpr (List.nodup_dedup xs)

theorem populate_step_eq (e p : Nat → Int) (acc : RunLists) (g : Nat) :
    populate_step e p acc g =
      ⟨acc.attempted ++ [g],
       acc.successful ++ (if e g = 0 ∧ p g = 0 then [g] else []),
       acc.crashed ++ (if e g = 0 then [] else [g]),
       acc.problem ++ (if p g = 0 then [] else [g])⟩ := by
  unfold populate_step
  by_cases h1 : e g = 0 <;> by_cases h2 : p g = 0 <;> simp [h1, h2]

theorem populate_fold_eq (e p : Nat → Int) :
    ∀ (gl : List Nat) (acc : RunLists),
      List.foldl (populate_step e p) acc gl =
        ⟨acc.attempted ++ gl,
         acc.successful ++ gl.filter (fun g => decide (e g = 0) && decide (p g = 0)),
         acc.crashed ++ gl.filter (fun g => !decide (e g = 0)),
         acc.problem ++ gl.filter (fun g => !decide (p g = 0))⟩
  | [], acc => by simp
  | g :: gl, acc => by
    rw [List.foldl_cons, populate_fold_eq e p gl, populate_step_eq]
    by_cases h1 : e g = 0 <;> by_cases h2 : p g = 0 <;>
      simp [h1, h2, List.filter_cons]

theorem populate_runs_eq (gl : List Nat) (e p : Nat → Int) :
    populate_runs gl e p =
      ⟨pySortedSet gl,
       pySortedSet (gl.filter (fun g => decide (e g = 0) && decide (p g = 0))),
       pySortedSet (gl.filter (fun g => !decide (e g = 0))),
       pySortedSet (gl.filter (fun g => !decide (p g = 0)))⟩ := by
  unfold populate_runs
  rw [populate_fold_eq]
  simp

theorem mem_populate_attempted {g : Nat} {gl : List Nat} {e p : Nat → Int} :
    g ∈ (populate_runs gl e p).attempted ↔ g ∈ gl := by
  rw [populate_runs_eq]
  exact mem_pySortedSet

theorem mem_populate_successful {g : Nat} {gl : List Nat} {e p : Nat → Int} :
    g ∈ (populate_runs gl e p).successful ↔ g ∈ gl ∧ e g = 0 ∧ p g = 0 := by
  rw [populate_runs_eq]
  show g ∈ pySortedSet _ ↔ _
  rw [mem_pySortedSet, List.mem_filter]
  simp

theorem mem_populate_crashed {g : Nat} {gl : List Nat} {e p : Nat → Int} :
    g ∈ (populate_runs gl e p).crashed ↔ g ∈ gl ∧ e g ≠ 0 := by
  rw [populate_runs_eq]
  show g ∈ pySortedSet _ ↔ _
  rw [mem_pySortedSet, List.mem_filter]
  simp

theorem mem_populate_problem {g : Nat} {gl : List Nat} {e p : Nat → Int} :
    g ∈ (populate_runs gl e p).problem ↔ g ∈ gl ∧ p g ≠ 0 := by
  rw [populate_runs_eq]
  show g ∈ pySortedSet _ ↔ _
  rw [mem_pySortedSet, List.mem_filter]
  simp

/-- Claim C7: the caller-facing summary is four sorted, de-duplicated
lists of granule ids derived only from the two per-granule status maps:
attempted holds every granule id; successful exactly those with exec
status 0 and problem status 0; crashed exactly those with non-zero exec
status; problem exactly those with non-zero problem status regardless of
exec status. -/
theorem populate_runs_spec (gl : List Nat) (e p : Nat → Int) :
    ((populate_runs gl e p).attempted.Sorted (fun a b => a ≤ b) ∧
      (populate_runs gl e p).attempted.Nodup ∧
      ∀ g, g ∈ (populate_runs gl e p).attempted ↔ g ∈ gl) ∧
    ((populate_runs gl e p).successful.Sorted (fun a b => a ≤ b) ∧
      (populate_runs gl e p).successful.Nodup ∧
      ∀ g, g ∈ (populate_runs gl e p).successful ↔ g ∈ gl ∧ e g = 0 ∧ p g = 0) ∧
    ((populate_runs gl e p).crashed.Sorted (fun a b => a ≤ b) ∧
      (populate_runs gl e p).crashed.Nodup ∧
      ∀ g, g ∈ (populate_runs gl e p).crashed ↔ g ∈ gl ∧ e g ≠ 0) ∧
    ((populate_runs gl e p).problem.Sorted (fun a b => a ≤ b) ∧
      (populate_runs gl e p).problem.Nodup ∧
      ∀ g, g ∈ (populate_runs gl e p).problem ↔ g ∈ gl ∧ p g ≠ 0) := by
  refine ⟨⟨?_, ?_, fun g => mem_populate_attempted⟩,
          ⟨?_, ?_, fun g => mem_populate_successful⟩,
          ⟨?_, ?_, fun g => mem_populate_crashed⟩,
          ⟨?_, ?_, fun g => mem_populate_problem⟩⟩ <;>
    rw [populate_runs_eq] <;>
    first
      | exact sorted_pySortedSet _
      | exact nodup_pySortedSet _

/-- Claim C3: the pool size is the requested value when one is requested
and it does not exceed the available count; the available count, with
the clamping warning, when the requested value exceeds it; and the full
available count when none is requested. -/
theorem cpus_to_use_spec (requested cpu_count : Int) :
    (requested ≤ cpu_count → cpus_to_use (some requested) cpu_count = (requested, false)) ∧
    (cpu_count < requested → cpus_to_use (some requested) cpu_count = (cpu_count, true)) ∧
    cpus_to_use none cpu_count = (cpu_count, false) := by
  refine ⟨fun h => ?_, fun h => ?_, rfl⟩
  · show (if requested > cpu_count then _ else _) = _
    rw [if_neg (by omega)]
  · show (if requested > cpu_count then _ else _) = _
    rw [if_pos (by omega)]

theorem cpus_to_use_spec_witness :
    cpus_to_use (some 10) 4 = (4, true) ∧
    cpus_to_use (some 3) 4 = (3, false) ∧
    cpus_to_use none 4 = (4, false) :=
  ⟨(cpus_to_use_spec 10 4).2.1 (by decide),
   (cpus_to_use_spec 3 4).1 (by decide),
   (cpus_to_use_spec 3 4).2.2⟩

theorem find_run_dir_aux (ex : Nat → Bool) (N : Nat) (hN : ex N = false) :
    ∀ (fuel idx : Nat), idx ≤ N → N - idx < fuel →
      (∀ i, idx ≤ i → i < N → ex i = true) →
      find_run_dir ex fuel idx = some N := by
  intro fuel
  induction fuel with
  | zero => intro idx _ h2 _; omega
  | succ fuel ih =>
    intro idx h1 h2 h3
    by_cases hidx : idx = N
    · subst hidx
      simp [find_run_dir, hN]
    · have hlt : idx < N := lt_of_le_of_ne h1 hidx
      have hex : ex idx = true := h3 idx le_rfl hlt
      simp only [find_run_dir, hex, if_true]
      exact ih (idx + 1) (by omega) (by omega) (fun i hi1 hi2 => h3 i (by omega) hi2)

/-- Claim C5: when directories with suffixes 0 through N-1 exist and the
one with suffix N does not, the allocation loop, probing indices in
increasing order from 0, returns index N (whose directory it then
creates via makedirs). -/
theorem find_run_dir_allocates_first_free (ex : Nat → Bool) (N fuel : Nat)
    (hprev : ∀ i, i < N → ex i = true) (hfree : ex N = false) (hfuel : N < fuel) :
    find_run_dir ex fuel 0 = some N ∧
    ∀ work_dir base, (find_run_dir ex fuel 0).map (run_dir_name work_dir base) =
      some (run_dir_name work_dir base N) := by
  have h : find_run_dir ex fuel 0 = some N :=
    find_run_dir_aux ex N hfree fuel 0 (Nat.zero_le N) (by omega)
      (fun i _ h2 => hprev i h2)
  exact ⟨h, fun work_dir base => by rw [h]; rfl⟩

theorem find_run_dir_allocates_first_free_witness :
    find_run_dir (fun i => decide (i < 3)) 5 0 = some 3 ∧
    (find_run_dir (fun i => decide (i < 3)) 5 0).map (run_dir_name "work" "d1") =
      some (run_dir_name "work" "d1" 3) := by
  have h := find_run_dir_allocates_first_free (fun i => decide (i < 3)) 3 5
    (fun i h => by simp [h]) (by decide) (by decide)
  exact ⟨h.1, h.2 "work" "d1"⟩

/-- Claim C9: the driver returns 2, before any input processing or
dispatch, when an environment or installation check fails; 1 when input
processing raises; and 0 otherwise. -/
theorem afire_main_exit_codes (e : MainEnv) :
    (envChecksOk e = false → afire_main e = (2, false)) ∧
    (envChecksOk e = true → e.processOutcome = ProcessOutcome.exc → afire_main e = (1, true)) ∧
    (envChecksOk e = true → ∀ a s c p, e.processOutcome = ProcessOutcome.ok a s c p →
      afire_main e = (0, true)) := by
  refine ⟨fun h => ?_, fun h1 h2 => ?_, fun h1 a s c p h2 => ?_⟩
  · simp [afire_main, h]
  · simp [afire_main, h1, h2]
  · simp [afire_main, h1, h2]

theorem afire_main_exit_codes_witness :
    afire_main ⟨false, true, true, true, ProcessOutcome.exc⟩ = (2, false) ∧
    afire_main ⟨true, true, true, true, ProcessOutcome.exc⟩ = (1, true) ∧
    afire_main ⟨true, true, true, true, ProcessOutcome.ok [] [] [] []⟩ = (0, true) :=
  ⟨(afire_main_exit_codes _).1 (by decide),
   (afire_main_exit_codes _).2.1 (by decide) rfl,
   (afire_main_exit_codes _).2.2 (by decide) [] [] [] [] rfl⟩

/-- Claim C4: a task whose ancillary staging step fails (non-zero status
or a raised fault) returns problem_rc = 1 and never invokes the external
binary, in both ancillary-only and full processing modes. -/
theorem afire_submitter_staging_failure (env : ExecEnv) (gd : GranuleDict)
    (opts : AfireOptions) (hfail : failedAncillary env.stage = true) :
    (afire_submitter env gd opts).rc_problem = 1 ∧
    (afire_submitter env gd opts).binaryInvoked = false := by
  unfold afire_submitter afire_worker_body
  by_cases h : opts.ancillary_only <;> simp [h, hfail]

theorem afire_submitter_staging_failure_witness :
    (afire_submitter stageFailEnv sampleGd sampleOpts).rc_problem = 1 ∧
    (afire_submitter stageFailEnv sampleGd sampleOpts).binaryInvoked = false :=
  afire_submitter_staging_failure stageFailEnv sampleGd sampleOpts (by decide)

/-- Claim C6: a task whose external binary exits non-zero still attempts
output repair and output relocation; the returned exec_rc is exactly the
binary's exit status, and problem_rc is computed independently from the
repair and relocation outcomes alone (a failure there gives 1 without
touching exec_rc). -/
theorem afire_submitter_nonzero_exec (env : ExecEnv) (gd : GranuleDict)
    (opts : AfireOptions) (rc : Int) (out : String)
    (hao : opts.ancillary_only = false)
    (hstage : failedAncillary env.stage = false)
    (hlink : env.linkOk = true)
    (hexec : env.execResult = some (rc, out))
    (hlog : env.logWriteOk = true)
    (hrc : rc ≠ 0) :
    (afire_submitter env gd opts).rc_exe = rc ∧
    (afire_submitter env gd opts).repairAttempted = true ∧
    (afire_submitter env gd opts).moveAttempted = true ∧
    (afire_submitter env gd opts).rc_problem =
      (if repairProblem env.repair = true ∨ env.moveOk.all (fun b => b) = false
       then 1 else 0) := by
  unfold afire_submitter afire_worker_body
  simp only [hao, hstage, hlink, hexec, hlog, Bool.false_eq_true, if_false,
    Bool.true_eq_false]
  refine ⟨trivial, trivial, trivial, ?_⟩
  cases hre : env.repair with
  | exc =>
    by_cases hm : env.moveOk.all (fun b => b) <;> simp [repairProblem, hm]
  | ok nfire writeOk =>
    by_cases hn : 0 < nfire
    · cases writeOk <;> by_cases hm : env.moveOk.all (fun b => b) <;>
        simp [repairProblem, hm, hn]
    · by_cases hm : env.moveOk.all (fun b => b) <;> simp [repairProblem, hm, hn]

theorem afire_submitter_nonzero_exec_witness :
    (afire_submitter crashEnv sampleGd sampleOpts).rc_exe = -11 ∧
    (afire_submitter crashEnv sampleGd sampleOpts).repairAttempted = true ∧
    (afire_submitter crashEnv sampleGd sampleOpts).moveAttempted = true ∧
    (afire_submitter crashEnv sampleGd sampleOpts).rc_problem = 1 := by
  have h := afire_submitter_nonzero_exec crashEnv sampleGd sampleOpts (-11)
    "crash output" rfl (by decide) rfl rfl rfl (by decide)
  exact ⟨h.1, h.2.1, h.2.2.1, by simpa using h.2.2.2⟩

/-- Claim C8: a task that executes the binary and whose output container
reports zero structured fire records never attempts the text report
write, and, with every other step succeeding, returns problem_rc = 0. -/
theorem afire_submitter_zero_records (env : ExecEnv) (gd : GranuleDict)
    (opts : AfireOptions) (rc : Int) (out : String) (w : Bool)
    (hao : opts.ancillary_only = false)
    (hstage : failedAncillary env.stage = false)
    (hlink : env.linkOk = true)
    (hexec : env.execResult = some (rc, out))
    (hlog : env.logWriteOk = true)
    (hrepair : env.repair = RepairOutcome.ok 0 w)
    (hmove : env.moveOk.all (fun b => b) = true) :
    (afire_submitter env gd opts).binaryInvoked = true ∧
    (afire_submitter env gd opts).reportAttempted = false ∧
    (afire_submitter env gd opts).rc_problem = 0 := by
  unfold afire_submitter afire_worker_body
  simp [hao, hstage, hlink, hexec, hlog, hrepair, hmove]

theorem afire_submitter_zero_records_witness :
    (afire_submitter zeroFireEnv sampleGd sampleOpts).binaryInvoked = true ∧
    (afire_submitter zeroFireEnv sampleGd sampleOpts).reportAttempted = false ∧
    (afire_submitter zeroFireEnv sampleGd sampleOpts).rc_problem = 0 :=
  afire_submitter_zero_records zeroFireEnv sampleGd sampleOpts 0 "done" true
    rfl (by decide) rfl rfl rfl rfl (by decide)

/-- Claim C1 counterexample: with staging succeeded and `link_files`
raising, the fault is caught at the task boundary (caughtFault) yet the
returned problem_rc is 0, refuting the claim that every caught fault
yields a non-zero problem_rc. -/
theorem afire_submitter_catchall_refuted :
    ¬ ((afire_submitter faultEnv sampleGd sampleOpts).caughtFault = true →
       (afire_submitter faultEnv sampleGd sampleOpts).rc_problem ≠ 0) :=
  fun hclaim => (hclaim rfl) rfl

/-- Claim C1 amended: any unhandled fault is caught at the task boundary
and a result for the task is still returned (the fault never propagates
to abort sibling tasks), but problem_rc is left at the value accumulated
before the fault — at every reachable fault point that value is 0, so
the fault is not reflected in problem_rc. -/
theorem afire_submitter_catchall (env : ExecEnv) (gd : GranuleDict)
    (opts : AfireOptions)
    (h : (afire_submitter env gd opts).caughtFault = true) :
    (afire_submitter env gd opts).granule_id = gd.granule_id ∧
    (afire_submitter env gd opts).rc_problem = 0 := by
  refine ⟨rfl, ?_⟩
  unfold afire_submitter afire_worker_body at h ⊢
  by_cases hao : opts.ancillary_only
  · simp [hao] at h
  · by_cases hf : failedAncillary env.stage
    · simp [hao, hf] at h
    · by_cases hl : env.linkOk = true
      · cases hexec : env.execResult with
        | none => simp [hao, hf, hl, hexec]
        | some pr =>
          obtain ⟨rc, out⟩ := pr
          by_cases hlog : env.logWriteOk = true
          · simp only [hao, hf, hl, hexec, hlog, Bool.false_eq_true, if_false,
              Bool.true_eq_false] at h ⊢
            split_ifs at h ⊢ with h1 h2 h3
            all_goals first
              | rfl
              | tauto
          · have hlog2 : env.logWriteOk = false := by
              cases hv : env.logWriteOk
              · rfl
              · exact absurd hv hlog
            simp [hao, hf, hl, hexec, hlog2]
      · have hl2 : env.linkOk = false := by
          cases hv : env.linkOk
          · rfl
          · exact absurd hv hl
        simp [hao, hf, hl2]

theorem afire_submitter_catchall_witness :
    (afire_submitter faultEnv sampleGd sampleOpts).granule_id = 7 ∧
    (afire_submitter faultEnv sampleGd sampleOpts).rc_problem = 0 := by
  have h := afire_submitter_catchall faultEnv sampleGd sampleOpts rfl
  exact ⟨h.1.trans rfl, h.2⟩

/-- Claim C10: a task whose binary is never invoked (staging failed or
ancillary-only mode) returns exec_rc = 0, the same value as a clean
binary exit, so under the caller's classification it can never land in
the crashed list, while its problem (if any) shows up only through the
problem list. -/
theorem afire_submitter_no_exec_never_crashed (env : ExecEnv) (gd : GranuleDict)
    (opts : AfireOptions)
    (h : failedAncillary env.stage = true ∨ opts.ancillary_only = true) :
    (afire_submitter env gd opts).rc_exe = 0 ∧
    (afire_submitter env gd opts).binaryInvoked = false ∧
    (∀ (gl : List Nat) (e p : Nat → Int),
      e (afire_submitter env gd opts).granule_id = (afire_submitter env gd opts).rc_exe →
      (afire_submitter env gd opts).granule_id ∉ (populate_runs gl e p).crashed) ∧
    (∀ (gl : List Nat) (e p : Nat → Int),
      (afire_submitter env gd opts).granule_id ∈ gl →
      p (afire_submitter env gd opts).granule_id ≠ 0 →
      (afire_submitter env gd opts).granule_id ∈ (populate_runs gl e p).problem) := by
  have hz : (afire_submitter env gd opts).rc_exe = 0 ∧
      (afire_submitter env gd opts).binaryInvoked = false := by
    unfold afire_submitter afire_worker_body
    rcases h with h | h
    · by_cases hao : opts.ancillary_only <;> simp [hao, h]
    · simp [h]
  refine ⟨hz.1, hz.2, ?_, ?_⟩
  · intro gl e p he hmem
    rw [mem_populate_crashed] at hmem
    exact hmem.2 (he.trans hz.1)
  · intro gl e p hgl hp
    rw [mem_populate_problem]
    exact ⟨hgl, hp⟩

theorem afire_submitter_no_exec_never_crashed_witness :
    (afire_submitter stageFailEnv sampleGd ⟨"work", true, false, true, none, "2.1"⟩).rc_exe = 0 ∧
    (afire_submitter stageFailEnv sampleGd ⟨"work", true, false, true, none, "2.1"⟩).binaryInvoked = false ∧
    (∀ (gl : List Nat) (e p : Nat → Int),
      e (afire_submitter stageFailEnv sampleGd ⟨"work", true, false, true, none, "2.1"⟩).granule_id =
        (afire_submitter stageFailEnv sampleGd ⟨"work", true, false, true, none, "2.1"⟩).rc_exe →
      (afire_submitter stageFailEnv sampleGd ⟨"work", true, false, true, none, "2.1"⟩).granule_id ∉
        (populate_runs gl e p).crashed) ∧
    (∀ (gl : List Nat) (e p : Nat → Int),
      (afire_submitter stageFailEnv sampleGd ⟨"work", true, false, true, none, "2.1"⟩).granule_id ∈ gl →
      p (afire_submitter stageFailEnv sampleGd ⟨"work", true, false, true, none, "2.1"⟩).granule_id ≠ 0 →
      (afire_submitter stageFailEnv sampleGd ⟨"work", true, false, true, none, "2.1"⟩).granule_id ∈
        (populate_runs gl e p).problem) :=
  afire_submitter_no_exec_never_crashed stageFailEnv sampleGd
    ⟨"work", true, false, true, none, "2.1"⟩ (Or.inl (by decide))

theorem dinsert_not_mem {m : List (Nat × Int)} {k : Nat}
    (h : k ∉ m.map Prod.fst) (v : Int) : dinsert m k v = m ++ [(k, v)] := by
  induction m with
  | nil => rfl
  | cons p rest ih =>
    have h1 : p.1 ≠ k := fun he => h (by simp [he])
    have h2 : k ∉ rest.map Prod.fst := fun hm => h (by simp [hm])
    obtain ⟨k0, v0⟩ := p
    simp only [dinsert, if_neg h1, List.cons_append, List.cons.injEq, true_and]
    exact ih h2

/-- One of the two status dicts built by the aggregation loop
(dispatcher.py lines 423-430), generic in which status is stored. -/
def buildDict (proj : WorkerResult → Int) (rs : List WorkerResult)
    (m : List (Nat × Int)) : List (Nat × Int) :=
  rs.foldl (fun acc r => dinsert acc r.granule_id (proj r)) m

theorem dispatcher_fold_eq :
    ∀ (rs : List WorkerResult) (acc : List (Nat × Int) × List (Nat × Int)),
      rs.foldl (fun acc r =>
          (dinsert acc.1 r.granule_id r.rc_exe, dinsert acc.2 r.granule_id r.rc_problem)) acc =
        (buildDict (fun r => r.rc_exe) rs acc.1, buildDict (fun r => r.rc_problem) rs acc.2)
  | [], acc => by simp [buildDict]
  | r :: rs, acc => by
    rw [List.foldl_cons, dispatcher_fold_eq rs]
    rfl

theorem buildDict_eq_append (proj : WorkerResult → Int) :
    ∀ (rs : List WorkerResult) (m : List (Nat × Int)),
      (∀ r ∈ rs, r.granule_id ∉ m.map Prod.fst) →
      (rs.map (fun r => r.granule_id)).Nodup →
      buildDict proj rs m = m ++ rs.map (fun r => (r.granule_id, proj r))
  | [], m, _, _ => by simp [buildDict]
  | r :: rs, m, hdisj, hnodup => by
    have hstep : dinsert m r.granule_id (proj r) = m ++ [(r.granule_id, proj r)] :=
      dinsert_not_mem (hdisj r (by simp)) _
    have hhead : r.granule_id ∉ rs.map (fun s => s.granule_id) :=
      (List.nodup_cons.mp hnodup).1
    have hdisj2 : ∀ s ∈ rs, s.granule_id ∉ (m ++ [(r.granule_id, proj r)]).map Prod.fst := by
      intro s hs
      rw [List.map_append]
      intro hmem
      rcases List.mem_append.mp hmem with hmem | hmem
      · exact hdisj s (by simp [hs]) hmem
      · simp only [List.map_cons, List.map_nil, List.mem_singleton] at hmem
        exact hhead (hmem ▸ List.mem_map_of_mem (fun s => s.granule_id) hs)
    calc buildDict proj (r :: rs) m
        = buildDict proj rs (dinsert m r.granule_id (proj r)) := rfl
      _ = buildDict proj rs (m ++ [(r.granule_id, proj r)]) := by rw [hstep]
      _ = (m ++ [(r.granule_id, proj r)]) ++ rs.map (fun s => (s.granule_id, proj s)) :=
          buildDict_eq_append proj rs _ hdisj2 (List.nodup_cons.mp hnodup).2
      _ = m ++ (r :: rs).map (fun s => (s.granule_id, proj s)) := by
          rw [List.append_assoc]
          rfl

theorem buildDict_keys (proj : WorkerResult → Int) (rs : List WorkerResult)
    (h : (rs.map (fun r => r.granule_id)).Nodup) :
    (buildDict proj rs []).map Prod.fst = rs.map (fun r => r.granule_id) := by
  rw [buildDict_eq_append proj rs [] (by simp) h]
  simp

theorem dlookup_mem :
    ∀ (d : List (Nat × GranuleDict)) (k : Nat), k ∈ d.map Prod.fst →
      ∃ gd, dlookup k d = some gd ∧ (k, gd) ∈ d
  | [], k, h => by simp at h
  | p :: d, k, h => by
    by_cases he : p.1 = k
    · refine ⟨p.2, by simp [dlookup, he], ?_⟩
      rw [← he]
      exact List.mem_cons_self _ _
    · have hk : k ∈ d.map Prod.fst := by
        rcases List.mem_cons.mp h with h | h
        · exact absurd h.symm he
        · exact h
      obtain ⟨gd, h1, h2⟩ := dlookup_mem d k hk
      exact ⟨gd, by simp [dlookup, he, h1], List.mem_cons_of_mem _ h2⟩

theorem dlookup_granule_id (d : List (Nat × GranuleDict))
    (hid : ∀ p ∈ d, (Prod.snd p).granule_id = Prod.fst p)
    (g : Nat) (hg : g ∈ d.map Prod.fst) :
    ((dlookup g d).getD default).granule_id = g := by
  obtain ⟨gd, h1, h2⟩ := dlookup_mem d g hg
  rw [h1]
  exact hid (g, gd) h2

/-- Claim C2: for every submitted task set with distinct granule ids
(each task record carrying its own id), the dispatcher returns two
status dicts whose key lists both equal the sorted submitted id list:
every submitted granule id contributes exactly one entry to each dict,
none lost, none duplicated. -/
theorem afire_dispatcher_keys (envOf : Nat → ExecEnv) (d : List (Nat × GranuleDict))
    (opts : AfireOptions)
    (hnodup : (d.map Prod.fst).Nodup)
    (hid : ∀ p ∈ d, (Prod.snd p).granule_id = Prod.fst p) :
    (afire_dispatcher envOf d opts).1.map Prod.fst = granuleIdList d ∧
    (afire_dispatcher envOf d opts).2.map Prod.fst = granuleIdList d ∧
    (granuleIdList d).Nodup ∧
    (∀ g, g ∈ granuleIdList d ↔ g ∈ d.map Prod.fst) := by
  have hperm : (granuleIdList d).Perm (d.map Prod.fst) := List.perm_insertionSort _ _
  have hgnodup : (granuleIdList d).Nodup := hperm.nodup_iff.mpr hnodup
  have hids :
      (((granuleIdList d).map (fun g => (dlookup g d).getD default)).map
        (fun gd => afire_submitter (envOf gd.granule_id) gd opts)).map
        (fun r => r.granule_id) = granuleIdList d := by
    rw [List.map_map, List.map_map]
    have hpt : ∀ g ∈ granuleIdList d,
        (((fun r : WorkerResult => r.granule_id) ∘
          (fun gd => afire_submitter (envOf gd.granule_id) gd opts)) ∘
            (fun g => (dlookup g d).getD default)) g = g := by
      intro g hg
      show (afire_submitter _ ((dlookup g d).getD default) opts).granule_id = g
      rw [afire_submitter_granule_id]
      exact dlookup_granule_id d hid g (hperm.mem_iff.mp hg)
    rw [List.map_congr_left hpt]
    simp
  refine ⟨?_, ?_, hgnodup, fun g => hperm.mem_iff⟩
  · simp only [afire_dispatcher]
    rw [dispatcher_fold_eq]
    rw [buildDict_keys _ _ (by rw [hids]; exact hgnodup)]
    exact hids
  · simp only [afire_dispatcher]
    rw [dispatcher_fold_eq]
    rw [buildDict_keys _ _ (by rw [hids]; exact hgnodup)]
    exact hids

theorem afire_dispatcher_keys_witness :
    (afire_dispatcher (fun _ => zeroFireEnv) sampleDict sampleOpts).1.map Prod.fst =
      granuleIdList sampleDict ∧
    (afire_dispatcher (fun _ => zeroFireEnv) sampleDict sampleOpts).2.map Prod.fst =
      granuleIdList sampleDict ∧
    (granuleIdList sampleDict).Nodup ∧
    (∀ g, g ∈ granuleIdList sampleDict ↔ g ∈ sampleDict.map Prod.fst) :=
  afire_dispatcher_keys (fun _ => zeroFireEnv) sampleDict sampleOpts
    (by decide) (by decide)
